import Mathlib

/-!
Verification of the Homevolt payload summarizer (`custom_components/homevolt/processor.py`)
and the capacity/health estimator (`custom_components/homevolt/capacity.py`).

The Python code consumes loosely structured JSON-like data; we embed such data as the
inductive type `JVal` (Python `None`/JSON `null` is `JVal.null`).  Python `float` values
are modelled as `Rat` (the code performs only arithmetic that is exact on rationals in
every situation a claim exercises; non-finite floats are outside the model and
`float("inf")`-style strings parse to `none`).  Python mappings are association lists
with unique keys in insertion order, matching `dict` semantics.  Code paths on which
the Python program can raise an exception are embedded in `Except PyErr`.
-/

set_option maxHeartbeats 1000000
set_option linter.unnecessarySeqFocus false
set_option linter.unusedTactic false

/-- JSON-like Python values as produced by `json.loads` (plus arbitrary nesting). -/
inductive JVal where
  | null : JVal
  | jbool : Bool → JVal
  | num : Rat → JVal
  | jstr : String → JVal
  | jlist : List JVal → JVal
  | jobj : List (String × JVal) → JVal

/-- Exceptions that the embedded Python code can raise. -/
inductive PyErr where
  | attributeError : PyErr
  | typeError : PyErr
deriving DecidableEq, Repr

/-- Lookup in a Python dict (first matching key; dicts have unique keys). -/
def dictGet? (m : List (String × JVal)) (k : String) : Option JVal :=
  match m with
  | [] => none
  | (k1, v) :: rest => if k1 = k then some v else dictGet? rest k

/-- Python `d.get(k)`: `None` when the key is absent. -/
def pyGet (m : List (String × JVal)) (k : String) : JVal :=
  (dictGet? m k).getD JVal.null

/-- Python `d[k] = v`: update in place, or append preserving insertion order. -/
def dictSet (m : List (String × JVal)) (k : String) (v : JVal) : List (String × JVal) :=
  match m with
  | [] => [(k, v)]
  | (k1, v1) :: rest => if k1 = k then (k1, v) :: rest else (k1, v1) :: dictSet rest k v

/-- Keys of a dict, in order. -/
def dictKeys (m : List (String × JVal)) : List String :=
  m.map Prod.fst

/-- Python truthiness of a JSON-like value. -/
def truthy : JVal → Bool
  | JVal.null => false
  | JVal.jbool b => b
  | JVal.num q => decide (q ≠ 0)
  | JVal.jstr s => decide (s ≠ "")
  | JVal.jlist xs => !xs.isEmpty
  | JVal.jobj fs => !fs.isEmpty

/-- Python `value is None` on a JSON-like value. -/
def isNoneJV : JVal → Bool
  | JVal.null => true
  | _ => false

/-- `_ensure_mapping`: the value itself when it is a mapping, else an empty mapping. -/
def ensureMapping : JVal → List (String × JVal)
  | JVal.jobj fs => fs
  | _ => []

/-- `_ensure_list`: the value itself when it is a list, else an empty list. -/
def ensureList : JVal → List JVal
  | JVal.jlist xs => xs
  | _ => []

/-- Whitespace-insensitive character class used by Python `float(str)`. -/
def isPyDigit (c : Char) : Bool := decide ('0' ≤ c) && decide (c ≤ '9')

/-- Fold a digit list into a natural number. -/
def digitsToNat (cs : List Char) : Nat :=
  cs.foldl (fun acc c => acc * 10 + (c.toNat - '0'.toNat)) 0

/-- Split a character list at the first `e`/`E` (exponent marker). -/
def splitOnExp : List Char → List Char × Option (List Char)
  | [] => ([], none)
  | c :: rest =>
    if c = 'e' ∨ c = 'E' then ([], some rest)
    else
      let p := splitOnExp rest
      (c :: p.1, p.2)

/-- Split a character list at the first `.`. -/
def splitOnDot : List Char → List Char × Option (List Char)
  | [] => ([], none)
  | c :: rest =>
    if c = '.' then ([], some rest)
    else
      let p := splitOnDot rest
      (c :: p.1, p.2)

/-- Strip one optional leading sign; returns (negative?, rest). -/
def splitSign : List Char → Bool × List Char
  | '-' :: rest => (true, rest)
  | '+' :: rest => (false, rest)
  | cs => (false, cs)

/-- Parse the decimal syntax accepted by Python `float(str)` (sign, digits, optional
fraction and exponent; surrounding whitespace stripped).  Non-finite spellings such as
`inf`/`nan` lie outside the rational model and parse to `none`. -/
def parseFloatChars (cs : List Char) : Option Rat :=
  let p := splitSign cs
  let neg := p.1
  let q := splitOnExp p.2
  let mant := splitOnDot q.1
  let intPart := mant.1
  let fracPart := (mant.2).getD []
  if !(intPart.all isPyDigit) ∨ !(fracPart.all isPyDigit) then none
  else if intPart.length + fracPart.length = 0 then none
  else
    let base : Rat :=
      (digitsToNat (intPart ++ fracPart) : Rat) / ((10 : Rat) ^ fracPart.length)
    let signed := if neg then -base else base
    match q.2 with
    | none => some signed
    | some expPart =>
      let ep := splitSign expPart
      if ep.2.isEmpty ∨ !(ep.2.all isPyDigit) then none
      else
        let e := digitsToNat ep.2
        some (if ep.1 then signed / (10 : Rat) ^ e else signed * (10 : Rat) ^ e)

/-- Python `float(s)` on a string, after stripping whitespace. -/
def parseFloatString (s : String) : Option Rat :=
  parseFloatChars (((s.toList.dropWhile Char.isWhitespace).reverse.dropWhile
    Char.isWhitespace).reverse)

/-- `_as_float`: Python `float(value)` with `None` check and `TypeError`/`ValueError`
caught; booleans convert (`float(True) = 1.0`), lists/dicts do not. -/
def asFloat : JVal → Option Rat
  | JVal.null => none
  | JVal.num q => some q
  | JVal.jbool b => some (if b then 1 else 0)
  | JVal.jstr s => parseFloatString s
  | JVal.jlist _ => none
  | JVal.jobj _ => none

/-- Python `isinstance(x, (int, float))` (true for `bool`, a subtype of `int`),
followed by `float(x)`. -/
def pyNumeric? : JVal → Option Rat
  | JVal.num q => some q
  | JVal.jbool b => some (if b then 1 else 0)
  | _ => none

/-- Round to the nearest integer, ties to even — Python `round` semantics on exact
rationals. -/
def roundHalfEven (q : Rat) : Int :=
  let f := q.floor
  let r := q - (f : Rat)
  if r < 1 / 2 then f
  else if 1 / 2 < r then f + 1
  else if f % 2 = 0 then f else f + 1

/-- Python `round(x, n)` on exact rationals. -/
def roundTo (q : Rat) (n : Nat) : Rat :=
  ((roundHalfEven (q * (10 : Rat) ^ n) : Rat)) / (10 : Rat) ^ n

/-- `_scaled_value`: `_as_float` then division, null-propagating. -/
def scaledValue (v : JVal) (divider : Rat) : Option Rat :=
  (asFloat v).map (fun q => q / divider)

/-- `_round_value`: null-propagating rounding. -/
def roundValue (v : Option Rat) (decimals : Nat) : Option Rat :=
  v.map (fun q => roundTo q decimals)

/-- `_energy_value`: energy counters as floats. -/
def energyValue (v : JVal) : Option Rat :=
  asFloat v

/-- `_energy_kwh`: convert Wh counters to kWh. -/
def energyKwh (v : JVal) : Option Rat :=
  (asFloat v).map (fun q => q / 1000)

/-- Decimal-ish rendering of a rational; abstracts Python numeric `str` (the exact
digits of float repr are outside the model; all claims are insensitive to them).
Never the empty string. -/
def numRepr (q : Rat) : String :=
  if q.den = 1 then toString q.num else toString q.num ++ "/" ++ toString q.den

mutual

/-- Python `repr` of a JSON-like value (abstracted for numbers, see `numRepr`). -/
def pyRepr : JVal → String
  | JVal.null => "None"
  | JVal.jbool true => "True"
  | JVal.jbool false => "False"
  | JVal.num q => numRepr q
  | JVal.jstr s => "\x27" ++ s ++ "\x27"
  | JVal.jlist xs => "[" ++ String.intercalate ", " (pyReprList xs) ++ "]"
  | JVal.jobj fs => "\x7b" ++ String.intercalate ", " (pyReprFields fs) ++ "\x7d"

/-- `repr` of list elements. -/
def pyReprList : List JVal → List String
  | [] => []
  | x :: xs => pyRepr x :: pyReprList xs

/-- `repr` of dict fields. -/
def pyReprFields : List (String × JVal) → List String
  | [] => []
  | (k, v) :: fs => ("\x27" ++ k ++ "\x27: " ++ pyRepr v) :: pyReprFields fs

end

/-- Python `str` of a JSON-like value: identity on strings, `repr` otherwise. -/
def pyStrVal : JVal → String
  | JVal.jstr s => s
  | v => pyRepr v

/-- `_safe_str`: `None` stays `None`, everything else is stringified. -/
def safeStr : JVal → Option String
  | JVal.null => none
  | v => some (pyStrVal v)

/-- Wrap an optional string back into a JSON-like value. -/
def optStr : Option String → JVal
  | none => JVal.null
  | some s => JVal.jstr s

/-- Wrap an optional number back into a JSON-like value. -/
def optNum : Option Rat → JVal
  | none => JVal.null
  | some q => JVal.num q

/-! ## capacity.py -/

/-- `is_full`: SOC at/above the configured full threshold. -/
def is_full (soc : Option Rat) (threshold : Rat) : Bool :=
  match soc with
  | none => false
  | some s => decide (threshold ≤ s)

/-- `sample_when_full`: latest value once per full cycle, plus updated latch. -/
def sample_when_full (current_value : Option Rat) (soc : Option Rat) (threshold : Rat)
    (previous_value : Option Rat) (was_full : Bool) : Option Rat × Bool :=
  match soc with
  | none => (previous_value, was_full)
  | some _ =>
    if !is_full soc threshold then (previous_value, false)
    else if was_full then (previous_value, true)
    else
      match current_value with
      | none => (previous_value, false)
      | some c => (some c, true)

/-- Module scan of `sample_total_when_full`: `soc`/`energy_available` of every module
when all are numeric (`isinstance(x, (int, float))`), `none` at the first failure. -/
def collectModules : List (List (String × JVal)) → Option (List (Rat × Rat))
  | [] => some []
  | m :: rest =>
    match pyNumeric? (pyGet m "soc"), pyNumeric? (pyGet m "energy_available") with
    | some s, some e => (collectModules rest).map (fun ps => (s, e) :: ps)
    | _, _ => none

/-- `sample_total_when_full`: summed module energy once per full cycle. -/
def sample_total_when_full (modules : List (List (String × JVal))) (threshold : Rat)
    (previous_value : Option Rat) (was_full : Bool) : Option Rat × Bool :=
  if modules.isEmpty then (previous_value, false)
  else
    match collectModules modules with
    | none => (previous_value, was_full)
    | some pairs =>
      if !(pairs.all (fun p => is_full (some p.1) threshold)) then (previous_value, false)
      else if was_full then (previous_value, true)
      else (some (roundTo (pairs.map Prod.snd).sum 2), true)

/-- `update_auto_max_baseline`: highest observed full sample. -/
def update_auto_max_baseline (current_sample : Option Rat) (previous_baseline : Option Rat) :
    Option Rat :=
  match current_sample with
  | none => previous_baseline
  | some c =>
    if c ≤ 0 then previous_baseline
    else
      match previous_baseline with
      | none => some c
      | some p => if p < c then some c else previous_baseline

/-- `temperature_variance`: measurement variance scaled by temperature quality. -/
def temperature_variance (temperature_c : Option Rat) (base_variance : Rat)
    (band : Rat × Rat) (scale_per_degree : Rat) (max_factor : Rat) : Rat :=
  if base_variance ≤ 0 then 0
  else
    match temperature_c with
    | none => base_variance * 2
    | some t =>
      let lower := band.1
      let upper := band.2
      let penalty : Rat := if t < lower then lower - t else if upper < t then t - upper else 0
      let factor := min (1 + penalty * scale_per_degree) max_factor
      base_variance * factor

/-- `kalman_update`: 1D Kalman estimate update for capacity. -/
def kalman_update (estimate : Option Rat) (variance : Option Rat) (measurement : Option Rat)
    (measurement_variance : Rat) (process_variance : Rat) : Option Rat × Option Rat :=
  match measurement with
  | none => (estimate, variance)
  | some m =>
    if measurement_variance ≤ 0 then (some m, some 0)
    else
      match estimate, variance with
      | some est, some var =>
        let predicted_variance := var + max process_variance 0
        let kalman_gain := predicted_variance / (predicted_variance + measurement_variance)
        let updated_estimate := est + kalman_gain * (m - est)
        let updated_variance := max 0 ((1 - kalman_gain) * predicted_variance)
        (some updated_estimate, some updated_variance)
      | _, _ => (some m, some measurement_variance)

/-- `seed_kalman_estimate`: seed from the latest full sample. -/
def seed_kalman_estimate (last_sample : Option Rat) (last_temperature : Option Rat) :
    Option Rat × Option Rat :=
  match last_sample with
  | none => (none, none)
  | some s =>
    (some s, some (temperature_variance last_temperature (4 / 100) (15, 30) (1 / 10) 5))

/-- `select_baseline`: baseline per strategy with optional per-module scaling
(`if module_count:` is Python truthiness: `None` and `0` are falsy). -/
def select_baseline (strategy : String) (manual_baseline : Option Rat)
    (auto_baseline : Option Rat) (module_count : Option Int) : Option Rat :=
  if strategy = "manual" then
    match manual_baseline with
    | none => none
    | some m =>
      if m ≤ 0 then none
      else
        match module_count with
        | some c => if c ≠ 0 then some (m / (c : Rat)) else some m
        | none => some m
  else auto_baseline

/-- `calculate_soh`: state-of-health percentage from full-sample energy. -/
def calculate_soh (current_sample : Option Rat) (baseline : Option Rat) : Option Rat :=
  match current_sample, baseline with
  | some c, some b =>
    if c < 0 ∨ b ≤ 0 then none
    else some (roundTo (c / b * 100) 1)
  | _, _ => none

/-! ## processor.py -/

/-- Raw payload returned by the Homevolt local API (`models.HomevoltPayload`);
Python `None` is `JVal.null`. -/
structure HomevoltPayload where
  status : JVal
  ems : JVal
  schedule : JVal
  error_report : JVal

/-- Flattened data provided by the update coordinator (`models.HomevoltCoordinatorData`). -/
structure HomevoltCoordinatorData where
  metrics : List (String × JVal)
  attributes : List (String × List (String × JVal))

/-- `SCHEDULE_TYPE_LABELS` from processor.py. -/
def scheduleTypeLabels : List (Rat × String) :=
  [(1, "charge"), (2, "discharge"), (3, "idle"), (4, "grid_discharge"), (5, "grid_cycle")]

/-- `SCHEDULE_TYPE_LABELS.get(v)`: raises `TypeError` on unhashable keys (lists/dicts);
Python numeric equality makes `True == 1` a hit. -/
def scheduleTypeLabel : JVal → Except PyErr (Option String)
  | JVal.jlist _ => Except.error PyErr.typeError
  | JVal.jobj _ => Except.error PyErr.typeError
  | JVal.num q => Except.ok ((scheduleTypeLabels.find? (fun p => decide (p.1 = q))).map Prod.snd)
  | JVal.jbool b => Except.ok (if b then some "charge" else none)
  | _ => Except.ok none

/-- `_first_list_entry`. -/
def firstListEntry (v : JVal) : List (String × JVal) :=
  match ensureList v with
  | [] => []
  | entry :: _ => ensureMapping entry

/-- `_sensor_by_index`. -/
def sensorByIndex (sensors : List JVal) (index : Nat) : List (String × JVal) :=
  match sensors.get? index with
  | some e => ensureMapping e
  | none => []

/-- Loop body of `_select_schedule`: first entry whose coerced window contains the
timestamp, skipping entries with unparseable bounds. -/
def selectScheduleGo (timestamp : Rat) : List JVal → Option (List (String × JVal))
  | [] => none
  | entry :: rest =>
    let data := ensureMapping entry
    match asFloat (pyGet data "from"), asFloat (pyGet data "to") with
    | some s, some e =>
      if s ≤ timestamp ∧ timestamp ≤ e then some data else selectScheduleGo timestamp rest
    | _, _ => selectScheduleGo timestamp rest

/-- `_select_schedule`. -/
def selectSchedule (scheduleList : JVal) (timestamp : Rat) : Option (List (String × JVal)) :=
  selectScheduleGo timestamp (ensureList scheduleList)

/-- `_inject_power`: updated metrics plus the per-channel attribute block. -/
def injectPower (metrics : List (String × JVal)) (sensor : List (String × JVal))
    (metricKey : String) : List (String × JVal) × List (String × JVal) :=
  (dictSet metrics metricKey (optNum (asFloat (pyGet sensor "total_power"))),
   [("phase", pyGet sensor "phase"),
    ("energy_imported", optNum (energyValue (pyGet sensor "energy_imported"))),
    ("energy_exported", optNum (energyValue (pyGet sensor "energy_exported")))])

/-- Outcome of the `activated` membership test in `_inject_error_summary`. -/
inductive ActivatedKind where
  | warning : ActivatedKind
  | error : ActivatedKind
  | skip : ActivatedKind
deriving DecidableEq, Repr

/-- Python `status not in {"warning", "error"}`: raises `TypeError` on unhashable
values (lists/dicts); all other non-matching values are skipped. -/
def classifyActivated : JVal → Except PyErr ActivatedKind
  | JVal.jlist _ => Except.error PyErr.typeError
  | JVal.jobj _ => Except.error PyErr.typeError
  | JVal.jstr s =>
    Except.ok (if s = "warning" then ActivatedKind.warning
      else if s = "error" then ActivatedKind.error else ActivatedKind.skip)
  | _ => Except.ok ActivatedKind.skip

/-- `_safe_str(entry.get("sub_system_name")) or "unknown"` (Python `or`: the empty
string is also replaced). -/
def subsystemNameOf (entry : List (String × JVal)) : String :=
  match safeStr (pyGet entry "sub_system_name") with
  | some s => if s = "" then "unknown" else s
  | none => "unknown"

/-- The `active_item` record built per counted error record. -/
def activeItemOf (entry : List (String × JVal)) (subsystem : String) (status : String) : JVal :=
  JVal.jobj [
    ("sub_system_name", JVal.jstr subsystem),
    ("error_name", pyGet entry "error_name"),
    ("activated", JVal.jstr status),
    ("message", pyGet entry "message"),
    ("details", JVal.jlist (ensureList (pyGet entry "details")))]

/-- Accumulator state of the `_inject_error_summary` loop. -/
structure ErrAcc where
  warningCount : Nat
  errorCount : Nat
  activeItems : List JVal
  subsystems : List (String × List JVal)

/-- `subsystems.setdefault(name, {"active_items": []})["active_items"].append(item)`. -/
def addToBucket (subs : List (String × List JVal)) (name : String) (item : JVal) :
    List (String × List JVal) :=
  match subs with
  | [] => [(name, [item])]
  | (n, items) :: rest =>
    if n = name then (n, items ++ [item]) :: rest
    else (n, items) :: addToBucket rest name item

/-- The record loop of `_inject_error_summary`. -/
def collectErrors : List JVal → ErrAcc → Except PyErr ErrAcc
  | [], acc => Except.ok acc
  | item :: rest, acc =>
    let entry := ensureMapping item
    match classifyActivated (pyGet entry "activated") with
    | Except.error e => Except.error e
    | Except.ok ActivatedKind.skip => collectErrors rest acc
    | Except.ok kind =>
      let statusStr := if kind = ActivatedKind.warning then "warning" else "error"
      let subsystem := subsystemNameOf entry
      let activeItem := activeItemOf entry subsystem statusStr
      collectErrors rest {
        warningCount := acc.warningCount + (if kind = ActivatedKind.warning then 1 else 0),
        errorCount := acc.errorCount + (if kind = ActivatedKind.warning then 0 else 1),
        activeItems := acc.activeItems ++ [activeItem],
        subsystems := addToBucket acc.subsystems subsystem activeItem }

/-- `metrics["subsystem_status"]`: `name -> bool(bucket["active_items"])`. -/
def subsystemStatusVal (subs : List (String × List JVal)) : JVal :=
  JVal.jobj (subs.map (fun p => (p.1, JVal.jbool (!p.2.isEmpty))))

/-- `attributes["errors"]["subsystems"]`. -/
def subsystemsVal (subs : List (String × List JVal)) : JVal :=
  JVal.jobj (subs.map (fun p => (p.1, JVal.jobj [("active_items", JVal.jlist p.2)])))

/-- Health classification of `_inject_error_summary`. -/
def healthStateOf (hasReport : Bool) (errorCount : Nat) (warningCount : Nat) : String :=
  if !hasReport then "unknown"
  else if errorCount ≠ 0 then "error"
  else if warningCount ≠ 0 then "warning"
  else "ok"

/-- `_inject_error_summary`: updated metrics and the `errors` attribute block. -/
def injectErrorSummary (metrics : List (String × JVal)) (targetAttrs : List (String × JVal))
    (errorReport : List JVal) (hasReport : Bool) :
    Except PyErr (List (String × JVal) × List (String × JVal)) :=
  match collectErrors errorReport ⟨0, 0, [], []⟩ with
  | Except.error e => Except.error e
  | Except.ok acc =>
    let healthState := healthStateOf hasReport acc.errorCount acc.warningCount
    let metrics1 := dictSet metrics "health_state" (JVal.jstr healthState)
    let metrics2 := dictSet metrics1 "warning_count" (JVal.num acc.warningCount)
    let metrics3 := dictSet metrics2 "error_count" (JVal.num acc.errorCount)
    let metrics4 := dictSet metrics3 "subsystem_status" (subsystemStatusVal acc.subsystems)
    let attrs1 := dictSet targetAttrs "warning_count" (JVal.num acc.warningCount)
    let attrs2 := dictSet attrs1 "error_count" (JVal.num acc.errorCount)
    let attrs3 := dictSet attrs2 "active_items" (JVal.jlist acc.activeItems)
    let attrs4 := dictSet attrs3 "subsystems" (subsystemsVal acc.subsystems)
    Except.ok (metrics4, attrs4)

/-- `ems_data.get("state_str") or ems.get("aggregated", {}).get("state_str")`:
the second operand raises `AttributeError` when `ems["aggregated"]` holds a
non-mapping value (no `.get` method). -/
def systemStateValue (emsData : List (String × JVal)) (ems : List (String × JVal)) :
    Except PyErr JVal :=
  let v1 := pyGet emsData "state_str"
  if truthy v1 then Except.ok v1
  else
    match (dictGet? ems "aggregated").getD (JVal.jobj []) with
    | JVal.jobj fs => Except.ok (pyGet fs "state_str")
    | _ => Except.error PyErr.attributeError

/-- One `BatteryModule` record of `attributes["battery"]["modules"]`. -/
def batteryModuleOf (module : JVal) : JVal :=
  let md := ensureMapping module
  JVal.jobj [
    ("soc", optNum (scaledValue (pyGet md "soc") 100)),
    ("cycle_count", pyGet md "cycle_count"),
    ("energy_available", optNum (roundValue (energyKwh (pyGet md "energy_avail")) 2)),
    ("temperature_min", optNum (scaledValue (pyGet md "tmin") 10)),
    ("temperature_max", optNum (scaledValue (pyGet md "tmax") 10)),
    ("state", pyGet md "state"),
    ("state_str", pyGet md "state_str"),
    ("alarm", pyGet md "alarm"),
    ("alarm_flags", JVal.jlist (ensureList (pyGet md "alarm_str")))]

/-- The schedule block of `summarize` (lines 120-139): metrics updates plus the
`schedule` attribute block.  Python `if active_schedule:` is dict truthiness, so an
empty selected mapping takes the else-branch. -/
def scheduleSection (metrics : List (String × JVal)) (schedule : List (String × JVal))
    (activeSchedule : Option (List (String × JVal))) :
    Except PyErr (List (String × JVal) × List (String × JVal)) :=
  match activeSchedule with
  | some d =>
    if d.isEmpty then
      Except.ok (metrics, [("local_mode", pyGet schedule "local_mode")])
    else
      match scheduleTypeLabel (pyGet d "type") with
      | Except.error e => Except.error e
      | Except.ok label =>
        let metrics1 :=
          match label with
          | some l => dictSet metrics "schedule_state" (JVal.jstr l)
          | none => metrics
        let params := ensureMapping (pyGet d "params")
        let setpoint := asFloat (pyGet params "setpoint")
        let spVal : JVal := match setpoint with | some q => JVal.num q | none => JVal.num 0
        let metrics2 := dictSet metrics1 "schedule_setpoint" spVal
        let schedAttrs : List (String × JVal) := [
          ("state", optStr label),
          ("setpoint", (dictGet? metrics2 "schedule_setpoint").getD JVal.null),
          ("from", pyGet d "from"),
          ("to", pyGet d "to"),
          ("local_mode", pyGet schedule "local_mode")]
        Except.ok (metrics2, schedAttrs)
  | none => Except.ok (metrics, [("local_mode", pyGet schedule "local_mode")])

/-- The unconditional metric assignments of `summarize` (processor.py lines 23-118),
parameterized by the extracted sub-mappings. -/
def baseMetrics (status emsData emsAggregate emsVoltage : List (String × JVal))
    (gridSensor solarSensor loadSensor : List (String × JVal)) (stateRaw : JVal) :
    List (String × JVal) :=
  let metrics : List (String × JVal) := []
  let metrics := dictSet metrics "system_state" (optStr (safeStr stateRaw))
  let metrics := dictSet metrics "wifi_status" (optStr (safeStr (pyGet status "wifi_status")))
  let metrics := dictSet metrics "lte_status" (optStr (safeStr (pyGet status "lte_status")))
  let metrics := dictSet metrics "battery_soc"
    (optNum (scaledValue (pyGet emsData "soc_avg") 100))
  let metrics := dictSet metrics "battery_temperature"
    (optNum (scaledValue (pyGet emsData "sys_temp") 10))
  let metrics := dictSet metrics "battery_power" (optNum (asFloat (pyGet emsData "power")))
  let metrics := (injectPower metrics gridSensor "grid_power").1
  let metrics := (injectPower metrics solarSensor "solar_power").1
  let metrics := (injectPower metrics loadSensor "load_power").1
  let metrics := dictSet metrics "grid_energy_imported"
    (optNum (energyValue (pyGet gridSensor "energy_imported")))
  let metrics := dictSet metrics "grid_energy_exported"
    (optNum (energyValue (pyGet gridSensor "energy_exported")))
  let metrics := dictSet metrics "solar_energy_consumed"
    (optNum (energyValue (pyGet solarSensor "energy_imported")))
  let metrics := dictSet metrics "solar_energy_produced"
    (optNum (energyValue (pyGet solarSensor "energy_exported")))
  let metrics := dictSet metrics "battery_energy_imported"
    (optNum (energyValue (pyGet emsAggregate "imported_kwh")))
  let metrics :=
    if isNoneJV ((dictGet? metrics "battery_energy_imported").getD JVal.null) then
      dictSet metrics "battery_energy_imported"
        (optNum (energyKwh (pyGet emsData "energy_consumed")))
    else metrics
  let metrics := dictSet metrics "battery_energy_exported"
    (optNum (energyValue (pyGet emsAggregate "exported_kwh")))
  let metrics :=
    if isNoneJV ((dictGet? metrics "battery_energy_exported").getD JVal.null) then
      dictSet metrics "battery_energy_exported"
        (optNum (energyKwh (pyGet emsData "energy_produced")))
    else metrics
  let metrics := dictSet metrics "frequency"
    (optNum (scaledValue (pyGet emsData "frequency") 1000))
  let metrics := dictSet metrics "voltage_l1" (optNum (scaledValue (pyGet emsVoltage "l1") 10))
  let metrics := dictSet metrics "voltage_l2" (optNum (scaledValue (pyGet emsVoltage "l2") 10))
  dictSet metrics "voltage_l3" (optNum (scaledValue (pyGet emsVoltage "l3") 10))

/-- `_ensure_list(raw_error_report) if raw_error_report is not None else []`. -/
def errorListOf (v : JVal) : List JVal :=
  match v with
  | JVal.null => []
  | v => ensureList v

/-- `has_report = raw_error_report is not None`. -/
def hasReportOf (v : JVal) : Bool :=
  match v with
  | JVal.null => false
  | _ => true

/-- `summarize(payload, now)`: flattened data for the coordinator.  `now` is the
instant's `timestamp()` value.  Exception-raising paths propagate as `Except.error`. -/
def summarize (payload : HomevoltPayload) (now : Rat) :
    Except PyErr HomevoltCoordinatorData :=
  let status := ensureMapping payload.status
  let ems := ensureMapping payload.ems
  let schedule := if truthy payload.schedule then ensureMapping payload.schedule else []
  let emsBlock := firstListEntry (pyGet ems "ems")
  let emsData := ensureMapping (pyGet emsBlock "ems_data")
  let emsAggregate := ensureMapping (pyGet emsBlock "ems_aggregate")
  let emsVoltage := ensureMapping (pyGet emsBlock "ems_voltage")
  match systemStateValue emsData ems with
  | Except.error e => Except.error e
  | Except.ok stateRaw =>
    let systemAttrs : List (String × JVal) := [
      ("uptime", pyGet status "uptime"),
      ("wifi_status", pyGet status "wifi_status"),
      ("lte_status", pyGet status "lte_status"),
      ("mqtt_status", pyGet status "mqtt_status"),
      ("w868_status", pyGet status "w868_status"),
      ("ems_status", pyGet status "ems_status"),
      ("warnings", JVal.jlist (ensureList (pyGet emsData "warning_str"))),
      ("info", JVal.jlist (ensureList (pyGet emsData "info_str"))),
      ("error", pyGet emsBlock "error_str")]
    let batteryModules := (ensureList (pyGet emsBlock "bms_data")).map batteryModuleOf
    let batteryAttrs : List (String × JVal) := [
      ("modules", JVal.jlist batteryModules),
      ("warning_flags", JVal.jlist (ensureList (pyGet emsData "warning_str"))),
      ("info_flags", JVal.jlist (ensureList (pyGet emsData "info_str")))]
    let sensors := ensureList (pyGet ems "sensors")
    let gridSensor := sensorByIndex sensors 0
    let solarSensor := sensorByIndex sensors 1
    let loadSensor := sensorByIndex sensors 2
    let gridAttrs := (injectPower [] gridSensor "grid_power").2
    let solarAttrs := (injectPower [] solarSensor "solar_power").2
    let loadAttrs := (injectPower [] loadSensor "load_power").2
    let metrics :=
      baseMetrics status emsData emsAggregate emsVoltage gridSensor solarSensor loadSensor
        stateRaw
    let activeSchedule := selectSchedule (pyGet schedule "schedule") now
    match scheduleSection metrics schedule activeSchedule with
    | Except.error e => Except.error e
    | Except.ok ms =>
      let rawErrorReport := payload.error_report
      let errorReport := errorListOf rawErrorReport
      let hasReport := hasReportOf rawErrorReport
      match injectErrorSummary ms.1 [] errorReport hasReport with
      | Except.error e => Except.error e
      | Except.ok me =>
        Except.ok {
          metrics := me.1,
          attributes := [
            ("system", systemAttrs),
            ("battery", batteryAttrs),
            ("grid", gridAttrs),
            ("solar", solarAttrs),
            ("load", loadAttrs),
            ("schedule", ms.2),
            ("errors", me.2)] }

/-! ## Dictionary lemmas -/

/-- A module mapping reports both a numeric `soc` and a numeric `energy_available`
(the evaluability test of `sample_total_when_full`). -/
def moduleNumeric (m : List (String × JVal)) : Bool :=
  (pyNumeric? (pyGet m "soc")).isSome && (pyNumeric? (pyGet m "energy_available")).isSome

/-- The per-entry test of `_select_schedule`: both bounds coerce to floats and the
timestamp lies inclusively within them. -/
def windowMatch (entry : JVal) (t : Rat) : Bool :=
  match asFloat (pyGet (ensureMapping entry) "from"),
      asFloat (pyGet (ensureMapping entry) "to") with
  | some s, some e => decide (s ≤ t ∧ t ≤ e)
  | _, _ => false

/-- A payload whose schedule holds the single active entry of the claim. -/
def schedPayload : HomevoltPayload :=
  ⟨JVal.jobj [], JVal.jobj [],
   JVal.jobj [("schedule", JVal.jlist [JVal.jobj [
     ("from", JVal.num 0), ("to", JVal.num 9999999999),
     ("type", JVal.num 1), ("params", JVal.jobj [("setpoint", JVal.num 3500)])]])],
   JVal.null⟩

/-- A record whose ensured mapping has `activated == "error"`. -/
def isErrorRecord (it : JVal) : Bool :=
  match pyGet (ensureMapping it) "activated" with
  | JVal.jstr "error" => true
  | _ => false

/-- A record whose ensured mapping has `activated == "warning"`. -/
def isWarningRecord (it : JVal) : Bool :=
  match pyGet (ensureMapping it) "activated" with
  | JVal.jstr "warning" => true
  | _ => false

/-- A record counted by the error aggregator (`activated` in warning/error). -/
def isActiveRecord (it : JVal) : Bool :=
  isWarningRecord it || isErrorRecord it

/-- The subsystem name an error record is grouped under. -/
def recordSubsystem (it : JVal) : String :=
  subsystemNameOf (ensureMapping it)

/-- An empty (but present) error report: the interesting boundary case of C5. -/
def c5wPayload : HomevoltPayload := ⟨JVal.jobj [], JVal.jobj [], JVal.null, JVal.jlist []⟩

/-- The snapshot summarized from `c5wPayload`. -/
def c5wSnap : HomevoltCoordinatorData :=
  (summarize c5wPayload 0).toOption.getD ⟨[], []⟩

/-- A payload with a single warning record under subsystem "EMS". -/
def c10wPayload : HomevoltPayload :=
  ⟨JVal.jobj [], JVal.jobj [], JVal.null,
   JVal.jlist [JVal.jobj [("sub_system_name", JVal.jstr "EMS"),
     ("activated", JVal.jstr "warning")]]⟩

/-- The snapshot summarized from `c10wPayload`. -/
def c10wSnap : HomevoltCoordinatorData :=
  (summarize c10wPayload 0).toOption.getD ⟨[], []⟩

/-- The declared metric key set of the spec (section 6). -/
def declaredMetricKeys : List String :=
  ["system_state", "wifi_status", "lte_status", "battery_soc", "battery_temperature",
   "battery_power", "grid_power", "solar_power", "load_power", "grid_energy_imported",
   "grid_energy_exported", "solar_energy_consumed", "solar_energy_produced",
   "battery_energy_imported", "battery_energy_exported", "frequency", "voltage_l1",
   "voltage_l2", "voltage_l3", "schedule_state", "schedule_setpoint", "health_state",
   "warning_count", "error_count", "subsystem_status"]

/-- A minimal payload with no schedule data. -/
def c1wPayload : HomevoltPayload := ⟨JVal.jobj [], JVal.jobj [], JVal.null, JVal.null⟩

/-- The snapshot summarized from `c1wPayload`. -/
def c1wSnap : HomevoltCoordinatorData :=
  (summarize c1wPayload 0).toOption.getD ⟨[], []⟩

theorem dictGet?_dictSet_self (m : List (String × JVal)) (k : String) (v : JVal) :
    dictGet? (dictSet m k v) k = some v := by
  induction m with
  | nil => simp [dictSet, dictGet?]
  | cons p rest ih =>
    obtain ⟨k1, v1⟩ := p
    by_cases h : k1 = k
    · simp [dictSet, dictGet?, h]
    · simp [dictSet, dictGet?, h, ih]

theorem dictGet?_dictSet_ne (m : List (String × JVal)) (k k2 : String) (v : JVal)
    (h : k ≠ k2) : dictGet? (dictSet m k v) k2 = dictGet? m k2 := by
  induction m with
  | nil => simp [dictSet, dictGet?, h]
  | cons p rest ih =>
    obtain ⟨k1, v1⟩ := p
    by_cases h1 : k1 = k
    · subst h1
      simp [dictSet, dictGet?, h]
    · by_cases h2 : k1 = k2
      · subst h2
        simp [dictSet, dictGet?, h1]
      · simp [dictSet, dictGet?, h1, h2, ih]

theorem mem_dictKeys_dictSet (m : List (String × JVal)) (k k2 : String) (v : JVal) :
    k2 ∈ dictKeys (dictSet m k v) ↔ k2 = k ∨ k2 ∈ dictKeys m := by
  induction m with
  | nil => simp [dictSet, dictKeys]
  | cons p rest ih =>
    obtain ⟨k1, v1⟩ := p
    by_cases h : k1 = k
    · subst h
      simp [dictSet, dictKeys]
      try tauto
    · simp [dictSet, dictKeys, h] at ih ⊢
      tauto

theorem dictKeys_cons (k1 : String) (v1 : JVal) (rest : List (String × JVal)) :
    dictKeys ((k1, v1) :: rest) = k1 :: dictKeys rest := rfl

theorem dictGet?_isSome_of_mem (m : List (String × JVal)) (k : String)
    (h : k ∈ dictKeys m) : (dictGet? m k).isSome = true := by
  induction m with
  | nil => simp [dictKeys] at h
  | cons p rest ih =>
    obtain ⟨k1, v1⟩ := p
    by_cases h1 : k1 = k
    · simp [dictGet?, h1]
    · rw [dictKeys_cons, List.mem_cons] at h
      rcases h with h | h
      · exact absurd h.symm h1
      · simp [dictGet?, h1, ih h]

/-! ## Claim theorems: capacity -/

/-- Claim C4: `sample_when_full` implements the full-cycle hysteresis transition — a
null SOC leaves the state unchanged, a non-full SOC resets the latch, a full SOC with
the latch set keeps the previous value, a false-to-true transition with a null current
value stays unlatched, and otherwise the current value is sampled with the latch set;
and the spec's concrete sequence at threshold 99.5 produces the stated states. -/
theorem C4_sample_when_full_hysteresis :
    (∀ (cur soc : Option Rat) (thr : Rat) (prev : Option Rat) (wf : Bool),
      (soc = none → sample_when_full cur soc thr prev wf = (prev, wf)) ∧
      (∀ s, soc = some s → is_full soc thr = false →
        sample_when_full cur soc thr prev wf = (prev, false)) ∧
      (is_full soc thr = true → wf = true →
        sample_when_full cur soc thr prev wf = (prev, true)) ∧
      (is_full soc thr = true → wf = false → cur = none →
        sample_when_full cur soc thr prev wf = (prev, false)) ∧
      (∀ c, is_full soc thr = true → wf = false → cur = some c →
        sample_when_full cur soc thr prev wf = (some c, true))) ∧
    (sample_when_full (some 10) (some 50) 99.5 (some 9) false = (some 9, false) ∧
     sample_when_full (some 10) (some 99.5) 99.5 (some 9) false = (some 10, true) ∧
     sample_when_full (some 10.5) (some 99.6) 99.5 (some 10) true = (some 10, true) ∧
     sample_when_full (some 10.5) (some 98) 99.5 (some 10) true = (some 10, false) ∧
     sample_when_full none (some 99.5) 99.5 (some 10) false = (some 10, false)) := by
  constructor
  · intro cur soc thr prev wf
    refine ⟨?_, ?_, ?_, ?_, ?_⟩
    · intro h; subst h; simp [sample_when_full]
    · intro s hs hf; subst hs; simp [sample_when_full, hf]
    · intro hf hw
      rcases soc with _ | s
      · simp [is_full] at hf
      · subst hw; simp [sample_when_full, hf]
    · intro hf hw hc
      rcases soc with _ | s
      · simp [is_full] at hf
      · subst hw; subst hc; simp [sample_when_full, hf]
    · intro c hf hw hc
      rcases soc with _ | s
      · simp [is_full] at hf
      · subst hw; subst hc; simp [sample_when_full, hf]
  · refine ⟨?_, ?_, ?_, ?_, ?_⟩ <;> norm_num [sample_when_full, is_full]

/-- Witness for C4: concrete full transition with a usable current value. -/
theorem C4_witness :
    sample_when_full (some 10) (some 99.5) 99.5 (some 9) false = (some 10, true) :=
  (C4_sample_when_full_hysteresis.1 (some 10) (some 99.5) 99.5 (some 9) false).2.2.2.2
    10 (by norm_num [is_full]) rfl rfl

/-- Claim C7: `calculate_soh` is null when either operand is null, when the sample is
negative or the baseline non-positive, and otherwise rounds `sample/baseline*100` to
one decimal; with the spec's concrete examples. -/
theorem C7_calculate_soh :
    (∀ (cs b : Option Rat),
      (cs = none → calculate_soh cs b = none) ∧
      (b = none → calculate_soh cs b = none) ∧
      (∀ c bb, cs = some c → b = some bb → c < 0 → calculate_soh cs b = none) ∧
      (∀ c bb, cs = some c → b = some bb → bb ≤ 0 → calculate_soh cs b = none) ∧
      (∀ c bb, cs = some c → b = some bb → 0 ≤ c → 0 < bb →
        calculate_soh cs b = some (roundTo (c / bb * 100) 1))) ∧
    (calculate_soh (some 9) (some 10) = some 90 ∧
     calculate_soh (some (-1)) (some 10) = none ∧
     calculate_soh (some 10) (some 0) = none) := by
  constructor
  · intro cs b
    refine ⟨?_, ?_, ?_, ?_, ?_⟩
    · intro h; subst h; simp [calculate_soh]
    · intro h; subst h; rcases cs with _ | c <;> simp [calculate_soh]
    · intro c bb hc hb h; subst hc; subst hb; simp [calculate_soh, h]
    · intro c bb hc hb h; subst hc; subst hb; simp [calculate_soh, h]
    · intro c bb hc hb h1 h2; subst hc; subst hb
      simp [calculate_soh, not_lt.2 h1, not_le.2 h2]
  · refine ⟨?_, ?_, ?_⟩ <;>
      norm_num [calculate_soh, roundTo, roundHalfEven, Rat.floor_def']

/-- Witness for C7: the regular branch at sample 9, baseline 10. -/
theorem C7_witness :
    calculate_soh (some 9) (some 10) = some (roundTo (9 / 10 * 100) 1) :=
  (C7_calculate_soh.1 (some 9) (some 10)).2.2.2.2 9 10 rfl rfl (by norm_num) (by norm_num)

/-- Claim C8: `select_baseline` under the manual strategy rejects a null or
non-positive manual baseline, divides by a provided non-zero module count, and
otherwise passes the manual baseline through; any other strategy returns the auto
baseline verbatim; with the spec's concrete examples. -/
theorem C8_select_baseline :
    (∀ (strategy : String) (mb ab : Option Rat) (mc : Option Int),
      (strategy = "manual" → mb = none → select_baseline strategy mb ab mc = none) ∧
      (∀ m, strategy = "manual" → mb = some m → m ≤ 0 →
        select_baseline strategy mb ab mc = none) ∧
      (∀ m c, strategy = "manual" → mb = some m → 0 < m → mc = some c → c ≠ 0 →
        select_baseline strategy mb ab mc = some (m / (c : Rat))) ∧
      (∀ m, strategy = "manual" → mb = some m → 0 < m → (mc = none ∨ mc = some 0) →
        select_baseline strategy mb ab mc = some m) ∧
      (strategy ≠ "manual" → select_baseline strategy mb ab mc = ab)) ∧
    (select_baseline "manual" (some 12) (some 10) (some 2) = some 6 ∧
     select_baseline "auto" (some 12) (some 10) none = some 10) := by
  constructor
  · intro strategy mb ab mc
    refine ⟨?_, ?_, ?_, ?_, ?_⟩
    · intro hs hm; subst hs; subst hm; simp [select_baseline]
    · intro m hs hm h; subst hs; subst hm; simp [select_baseline, h]
    · intro m c hs hm h1 hc h2; subst hs; subst hm; subst hc
      simp [select_baseline, not_le.2 h1, h2]
    · intro m hs hm h1 hc; subst hs; subst hm
      rcases hc with hc | hc <;> subst hc <;> simp [select_baseline, not_le.2 h1]
    · intro hs; simp [select_baseline, hs]
  · constructor
    · norm_num [select_baseline]
    · simp [select_baseline]

/-- Witness for C8: manual baseline 12 split over 2 modules. -/
theorem C8_witness :
    select_baseline "manual" (some 12) (some 10) (some 2) = some (12 / (2 : Rat)) :=
  (C8_select_baseline.1 "manual" (some 12) (some 10) (some 2)).2.2.1 12 2 rfl rfl
    (by norm_num) rfl (by norm_num)

theorem collectModules_none_iff (ms : List (List (String × JVal))) :
    collectModules ms = none ↔ ∃ m ∈ ms, moduleNumeric m = false := by
  induction ms with
  | nil => simp [collectModules]
  | cons m rest ih =>
    cases hs : pyNumeric? (pyGet m "soc") with
    | none =>
      simp [collectModules, hs]
      exact Or.inl (by simp [moduleNumeric, hs])
    | some s =>
      cases he : pyNumeric? (pyGet m "energy_available") with
      | none =>
        simp [collectModules, hs, he]
        exact Or.inl (by simp [moduleNumeric, hs, he])
      | some e =>
        simp [collectModules, hs, he, Option.map_eq_none', ih, moduleNumeric]

theorem collectModules_some (ms : List (List (String × JVal)))
    (h : ∀ m ∈ ms, moduleNumeric m = true) :
    collectModules ms = some (ms.map fun m =>
      ((pyNumeric? (pyGet m "soc")).getD 0,
       (pyNumeric? (pyGet m "energy_available")).getD 0)) := by
  induction ms with
  | nil => simp [collectModules]
  | cons m rest ih =>
    have hm := h m (by simp)
    simp [moduleNumeric] at hm
    obtain ⟨s, hs⟩ := Option.isSome_iff_exists.mp hm.1
    obtain ⟨e, he⟩ := Option.isSome_iff_exists.mp hm.2
    have hrest := ih (fun x hx => h x (by simp [hx]))
    simp [collectModules, hs, he, hrest]

/-- Counterexample to Claim C3 as stated: a non-empty modules list with a module
missing `energy_available` and the latch already set returns `(previous_value, true)`,
not `(previous_value, false)` — the code leaves `was_full` unchanged on
non-evaluable data. -/
theorem C3_counterexample :
    sample_total_when_full [[("soc", JVal.num 100)]] 99 (some 10) true = (some 10, true) ∧
    sample_total_when_full [[("soc", JVal.num 100)]] 99 (some 10) true ≠ (some 10, false) := by
  constructor
  · simp [sample_total_when_full, collectModules, pyGet, dictGet?, pyNumeric?]
  · simp [sample_total_when_full, collectModules, pyGet, dictGet?, pyNumeric?]

/-- Claim C3 (amended): on a non-empty modules list where some module is missing a
numeric `soc` or `energy_available`, `sample_total_when_full` returns
`(previous_value, was_full)` with the latch unchanged; an empty list yields
`(previous_value, false)`; and only when every module is numeric and every soc
satisfies `is_full` does it return the 2-decimal-rounded sum of `energy_available`
with the once-per-cycle latch applied. -/
theorem C3_sample_total_when_full :
    ∀ (modules : List (List (String × JVal))) (thr : Rat) (prev : Option Rat) (wf : Bool),
      (modules = [] → sample_total_when_full modules thr prev wf = (prev, false)) ∧
      (modules ≠ [] → (∃ m ∈ modules, moduleNumeric m = false) →
        sample_total_when_full modules thr prev wf = (prev, wf)) ∧
      ((∀ m ∈ modules, moduleNumeric m = true) → modules ≠ [] →
        (¬ (∀ m ∈ modules, is_full (pyNumeric? (pyGet m "soc")) thr = true) →
          sample_total_when_full modules thr prev wf = (prev, false)) ∧
        ((∀ m ∈ modules, is_full (pyNumeric? (pyGet m "soc")) thr = true) →
          sample_total_when_full modules thr prev wf =
            (if wf then (prev, true)
             else (some (roundTo (modules.map
               (fun m => (pyNumeric? (pyGet m "energy_available")).getD 0)).sum 2),
               true)))) := by
  intro modules thr prev wf
  have hfull_congr : (∀ m ∈ modules, moduleNumeric m = true) →
      ∀ m ∈ modules, is_full (some ((pyNumeric? (pyGet m "soc")).getD 0)) thr =
        is_full (pyNumeric? (pyGet m "soc")) thr := by
    intro hall m hm
    have := hall m hm
    simp [moduleNumeric] at this
    obtain ⟨s, hs⟩ := Option.isSome_iff_exists.mp this.1
    rw [hs]
    simp
  refine ⟨?_, ?_, ?_⟩
  · intro h; subst h; simp [sample_total_when_full]
  · intro hne hex
    obtain ⟨m0, rest, hm⟩ := List.exists_cons_of_ne_nil hne
    subst hm
    simp [sample_total_when_full, (collectModules_none_iff _).mpr hex]
  · intro hall hne
    obtain ⟨m0, rest, hm⟩ := List.exists_cons_of_ne_nil hne
    have hsome := collectModules_some _ hall
    have hallcong := hfull_congr hall
    have hiff : (((modules.map fun m =>
        ((pyNumeric? (pyGet m "soc")).getD 0,
         (pyNumeric? (pyGet m "energy_available")).getD 0)).all
          (fun p => is_full (some p.1) thr)) = true) ↔
        ∀ m ∈ modules, is_full (pyNumeric? (pyGet m "soc")) thr = true := by
      rw [List.all_eq_true]
      constructor
      · intro h m hmem
        rw [← hallcong m hmem]
        exact h _ (List.mem_map_of_mem _ hmem)
      · intro h p hp
        obtain ⟨m, hmem, rfl⟩ := List.mem_map.mp hp
        rw [hallcong m hmem]
        exact h m hmem
    constructor
    · intro hnot
      have hfalse : ((modules.map fun m =>
          ((pyNumeric? (pyGet m "soc")).getD 0,
           (pyNumeric? (pyGet m "energy_available")).getD 0)).all
            (fun p => is_full (some p.1) thr)) = false := by
        rcases hb : ((modules.map fun m =>
            ((pyNumeric? (pyGet m "soc")).getD 0,
             (pyNumeric? (pyGet m "energy_available")).getD 0)).all
              (fun p => is_full (some p.1) thr))
        · rfl
        · exact absurd (hiff.mp hb) hnot
      rw [hm] at hsome hfalse ⊢
      unfold sample_total_when_full
      rw [hsome]
      generalize hL : List.map (fun m =>
        ((pyNumeric? (pyGet m "soc")).getD 0,
         (pyNumeric? (pyGet m "energy_available")).getD 0)) (m0 :: rest) = L at hfalse ⊢
      simp [hfalse]
    · intro hq
      have htrue := hiff.mpr hq
      rw [hm] at hsome htrue ⊢
      unfold sample_total_when_full
      rw [hsome]
      generalize hL : List.map (fun m =>
        ((pyNumeric? (pyGet m "soc")).getD 0,
         (pyNumeric? (pyGet m "energy_available")).getD 0)) (m0 :: rest) = L at htrue ⊢
      rcases wf with _ | _ <;> simp [htrue] <;> rw [← hL] <;>
        simp [List.map_map, Function.comp_def]

/-- Witness for C3: the spec's aggregate example — both modules numeric and full at
threshold 99.5 sums to 11.0 with the latch set. -/
theorem C3_witness :
    sample_total_when_full
      [[("soc", JVal.num 99.6), ("energy_available", JVal.num 5.55)],
       [("soc", JVal.num 99.7), ("energy_available", JVal.num 5.45)]]
      99.5 none false = (some 11, true) := by
  have h := ((C3_sample_total_when_full
      [[("soc", JVal.num 99.6), ("energy_available", JVal.num 5.55)],
       [("soc", JVal.num 99.7), ("energy_available", JVal.num 5.45)]]
      99.5 none false).2.2
    (by
      intro m hmem
      simp only [List.mem_cons, List.not_mem_nil, or_false] at hmem
      rcases hmem with rfl | rfl <;> simp [moduleNumeric, pyGet, dictGet?, pyNumeric?])
    (by simp)).2
    (by
      intro m hmem
      simp only [List.mem_cons, List.not_mem_nil, or_false] at hmem
      rcases hmem with rfl | rfl <;> norm_num [is_full, pyGet, dictGet?, pyNumeric?])
  rw [h]
  simp [pyGet, dictGet?, pyNumeric?]
  norm_num [roundTo, roundHalfEven, Rat.floor_def']

/-- Claim C9: `kalman_update` with a positive measurement variance seeds exactly from
the measurement when there is no prior state, and a subsequent update from a
non-negative prior variance strictly shrinks the variance below
`prior variance + process variance`. -/
theorem C9_kalman_update :
    ∀ (est var : Option Rat) (m mv pv : Rat),
      (0 < mv → (est = none ∨ var = none) →
        kalman_update est var (some m) mv pv = (some m, some mv)) ∧
      (∀ e v, est = some e → var = some v → 0 ≤ v → 0 < mv → 0 ≤ pv → 0 < v + pv →
        ∀ v2, (kalman_update est var (some m) mv pv).2 = some v2 → v2 < v + pv) := by
  intro est var m mv pv
  constructor
  · intro hmv hnone
    rcases est with _ | e
    · rcases var with _ | v <;> simp [kalman_update, not_le.2 hmv]
    · rcases var with _ | v
      · simp [kalman_update, not_le.2 hmv]
      · rcases hnone with h | h <;> simp at h
  · intro e v he hv hvnn hmv hpv hsum v2 hupd
    subst he; subst hv
    have hmax : max pv 0 = pv := max_eq_left hpv
    simp [kalman_update, not_le.2 hmv, hmax] at hupd
    have hden : (0 : Rat) < v + pv + mv := by linarith
    have hg : (1 : Rat) - (v + pv) / (v + pv + mv) = mv / (v + pv + mv) := by
      field_simp
    rw [hg] at hupd
    have hlt : mv / (v + pv + mv) * (v + pv) < v + pv := by
      have h1 : mv / (v + pv + mv) < 1 := (div_lt_one hden).mpr (by linarith)
      exact mul_lt_of_lt_one_left hsum h1
    have hnn : (0 : Rat) ≤ mv / (v + pv + mv) * (v + pv) := by positivity
    rw [← hupd, max_eq_right hnn]
    exact hlt

/-- Witness for C9: a second update from prior `(12, 1)` with measurement 10 and
both variances 1 yields variance 2/3, strictly below `1 + 1`. -/
theorem C9_witness : (2 / 3 : Rat) < 1 + 1 :=
  (C9_kalman_update (some 12) (some 1) 10 1 1).2 12 1 rfl rfl (by norm_num)
    (by norm_num) (by norm_num) (by norm_num) (2 / 3)
    (by norm_num [kalman_update])

theorem selectScheduleGo_none_iff (t : Rat) (l : List JVal) :
    selectScheduleGo t l = none ↔ ∀ e ∈ l, windowMatch e t = false := by
  induction l with
  | nil => simp [selectScheduleGo]
  | cons entry rest ih =>
    cases hf : asFloat (pyGet (ensureMapping entry) "from") with
    | none => simp [selectScheduleGo, windowMatch, hf, ih]
    | some s =>
      cases ht : asFloat (pyGet (ensureMapping entry) "to") with
      | none => simp [selectScheduleGo, windowMatch, hf, ht, ih]
      | some e =>
        by_cases hw : s ≤ t ∧ t ≤ e
        · simp [selectScheduleGo, windowMatch, hf, ht, hw]
        · simp [selectScheduleGo, windowMatch, hf, ht, hw, ih]
          intro _ hst
          exact not_le.mp (fun hte => hw ⟨hst, hte⟩)

theorem selectScheduleGo_some (t : Rat) (l : List JVal) (d : List (String × JVal))
    (h : selectScheduleGo t l = some d) :
    ∃ i, ∃ hi : i < l.length,
      d = ensureMapping (l.get ⟨i, hi⟩) ∧
      windowMatch (l.get ⟨i, hi⟩) t = true ∧
      ∀ e ∈ l.take i, windowMatch e t = false := by
  induction l with
  | nil => simp [selectScheduleGo] at h
  | cons entry rest ih =>
    cases hf : asFloat (pyGet (ensureMapping entry) "from") with
    | none =>
      rw [selectScheduleGo] at h
      rw [hf] at h
      obtain ⟨i, hi, hd, hm, hpre⟩ := ih h
      refine ⟨i + 1, by simpa using hi, hd, hm, ?_⟩
      intro e he
      rw [List.take_succ_cons, List.mem_cons] at he
      rcases he with rfl | he
      · simp [windowMatch, hf]
      · exact hpre e he
    | some s =>
      cases ht : asFloat (pyGet (ensureMapping entry) "to") with
      | none =>
        rw [selectScheduleGo] at h
        rw [hf, ht] at h
        obtain ⟨i, hi, hd, hm, hpre⟩ := ih h
        refine ⟨i + 1, by simpa using hi, hd, hm, ?_⟩
        intro e he
        rw [List.take_succ_cons, List.mem_cons] at he
        rcases he with rfl | he
        · simp [windowMatch, hf, ht]
        · exact hpre e he
      | some e2 =>
        rw [selectScheduleGo, hf, ht] at h
        have h2 : (if s ≤ t ∧ t ≤ e2 then some (ensureMapping entry)
            else selectScheduleGo t rest) = some d := h
        by_cases hw : s ≤ t ∧ t ≤ e2
        · rw [if_pos hw] at h2
          refine ⟨0, by simp, ?_, ?_, by simp⟩
          · simpa using h2.symm
          · simp [windowMatch, hf, ht, hw]
        · rw [if_neg hw] at h2
          obtain ⟨i, hi, hd, hm, hpre⟩ := ih h2
          refine ⟨i + 1, by simpa using hi, hd, hm, ?_⟩
          intro e he
          rw [List.take_succ_cons, List.mem_cons] at he
          rcases he with rfl | he
          · simp [windowMatch, hf, ht, hw]
          · exact hpre e he

/-- Claim C6: schedule selection returns the first entry, in list order, whose coerced
from/to window contains the timestamp inclusively, skipping entries with unparseable
bounds, and null when no entry matches (in particular for an empty or malformed list);
and for the active entry `from 0, to 9999999999, type 1, setpoint 3500` at any instant
in range, `summarize` reports `schedule_state = "charge"` and
`schedule_setpoint = 3500`. -/
theorem C6_schedule_selection :
    (∀ (v : JVal) (t : Rat),
      (selectSchedule v t = none ↔ ∀ e ∈ ensureList v, windowMatch e t = false) ∧
      (∀ d, selectSchedule v t = some d →
        ∃ i, ∃ hi : i < (ensureList v).length,
          d = ensureMapping ((ensureList v).get ⟨i, hi⟩) ∧
          windowMatch ((ensureList v).get ⟨i, hi⟩) t = true ∧
          ∀ e ∈ (ensureList v).take i, windowMatch e t = false)) ∧
    (∀ now : Rat, 0 ≤ now → now ≤ 9999999999 →
      (summarize schedPayload now).map
        (fun s =>
          (dictGet? s.metrics "schedule_state", dictGet? s.metrics "schedule_setpoint")) =
      Except.ok (some (JVal.jstr "charge"), some (JVal.num 3500))) := by
  constructor
  · intro v t
    exact ⟨selectScheduleGo_none_iff t (ensureList v),
      fun d h => selectScheduleGo_some t (ensureList v) d h⟩
  · intro now h1 h2
    simp [summarize, schedPayload, baseMetrics, systemStateValue, truthy, ensureMapping,
      pyGet, dictGet?, firstListEntry, ensureList, selectSchedule, selectScheduleGo,
      asFloat, scheduleSection, scheduleTypeLabel, scheduleTypeLabels, injectErrorSummary,
      collectErrors, injectPower, sensorByIndex, dictSet, h1, h2, optNum, optStr, safeStr,
      scaledValue, energyValue, energyKwh, healthStateOf, subsystemStatusVal, Except.map]

/-- Witness for C6: the end-to-end schedule metrics at instant 5. -/
theorem C6_witness :
    (summarize schedPayload 5).map
      (fun s =>
        (dictGet? s.metrics "schedule_state", dictGet? s.metrics "schedule_setpoint")) =
    Except.ok (some (JVal.jstr "charge"), some (JVal.num 3500)) :=
  C6_schedule_selection.2 5 (by norm_num) (by norm_num)

/-- Claim C2 (code bug): `summarize` is not total.  With `status = {}` and
`ems = {"aggregated": 3}` (a JSON-shaped payload with a wrongly typed nested field),
`ems_data.get("state_str")` is falsy, so the code evaluates
`ems.get("aggregated", {}).get("state_str")` on the integer 3 and raises
`AttributeError`. -/
theorem C2_summarize_raises :
    summarize ⟨JVal.jobj [], JVal.jobj [("aggregated", JVal.num 3)], JVal.null, JVal.null⟩ 0 =
    Except.error PyErr.attributeError := rfl

theorem errorListOf_eq (v : JVal) : errorListOf v = ensureList v := by
  rcases v <;> rfl


theorem collectErrors_ok_counts (items : List JVal) :
    ∀ (acc acc2 : ErrAcc), collectErrors items acc = Except.ok acc2 →
      acc2.errorCount = acc.errorCount + items.countP isErrorRecord ∧
      acc2.warningCount = acc.warningCount + items.countP isWarningRecord := by
  induction items with
  | nil =>
    intro acc acc2 h
    simp [collectErrors] at h
    subst h
    simp
  | cons it rest ih =>
    intro acc acc2 h
    rcases hv : pyGet (ensureMapping it) "activated" with _ | b | q | s | xs | fs
    · rw [collectErrors, hv] at h
      have h2 : collectErrors rest acc = Except.ok acc2 := h
      have := ih acc acc2 h2
      simp [List.countP_cons, isErrorRecord, isWarningRecord, hv, this]
    · rw [collectErrors, hv] at h
      have h2 : collectErrors rest acc = Except.ok acc2 := h
      have := ih acc acc2 h2
      simp [List.countP_cons, isErrorRecord, isWarningRecord, hv, this]
    · rw [collectErrors, hv] at h
      have h2 : collectErrors rest acc = Except.ok acc2 := h
      have := ih acc acc2 h2
      simp [List.countP_cons, isErrorRecord, isWarningRecord, hv, this]
    · by_cases hw : s = "warning"
      · subst hw
        rw [collectErrors, hv] at h
        have h2 : collectErrors rest
            { warningCount := acc.warningCount + 1, errorCount := acc.errorCount + 0,
              activeItems := acc.activeItems ++
                [activeItemOf (ensureMapping it) (subsystemNameOf (ensureMapping it)) "warning"],
              subsystems := addToBucket acc.subsystems (subsystemNameOf (ensureMapping it))
                (activeItemOf (ensureMapping it) (subsystemNameOf (ensureMapping it))
                  "warning") } = Except.ok acc2 := h
        have := ih _ acc2 h2
        simp [List.countP_cons, isErrorRecord, isWarningRecord, hv] at this ⊢
        omega
      · by_cases he : s = "error"
        · subst he
          rw [collectErrors, hv] at h
          have h2 : collectErrors rest
              { warningCount := acc.warningCount + 0, errorCount := acc.errorCount + 1,
                activeItems := acc.activeItems ++
                  [activeItemOf (ensureMapping it) (subsystemNameOf (ensureMapping it)) "error"],
                subsystems := addToBucket acc.subsystems (subsystemNameOf (ensureMapping it))
                  (activeItemOf (ensureMapping it) (subsystemNameOf (ensureMapping it))
                    "error") } = Except.ok acc2 := h
          have := ih _ acc2 h2
          simp [List.countP_cons, isErrorRecord, isWarningRecord, hv] at this ⊢
          omega
        · rw [collectErrors, hv] at h
          simp [classifyActivated, hw, he] at h
          have := ih acc acc2 h
          simp [List.countP_cons, isErrorRecord, isWarningRecord, hv, hw, he, this]
    · rw [collectErrors, hv] at h
      simp [classifyActivated] at h
    · rw [collectErrors, hv] at h
      simp [classifyActivated] at h

theorem summarize_ok_decomp (p : HomevoltPayload) (now : Rat)
    (snap : HomevoltCoordinatorData) (h : summarize p now = Except.ok snap) :
    ∃ stateRaw ms me,
      systemStateValue
        (ensureMapping (pyGet (firstListEntry (pyGet (ensureMapping p.ems) "ems")) "ems_data"))
        (ensureMapping p.ems) = Except.ok stateRaw ∧
      scheduleSection
        (baseMetrics (ensureMapping p.status)
          (ensureMapping (pyGet (firstListEntry (pyGet (ensureMapping p.ems) "ems"))
            "ems_data"))
          (ensureMapping (pyGet (firstListEntry (pyGet (ensureMapping p.ems) "ems"))
            "ems_aggregate"))
          (ensureMapping (pyGet (firstListEntry (pyGet (ensureMapping p.ems) "ems"))
            "ems_voltage"))
          (sensorByIndex (ensureList (pyGet (ensureMapping p.ems) "sensors")) 0)
          (sensorByIndex (ensureList (pyGet (ensureMapping p.ems) "sensors")) 1)
          (sensorByIndex (ensureList (pyGet (ensureMapping p.ems) "sensors")) 2) stateRaw)
        (if truthy p.schedule then ensureMapping p.schedule else [])
        (selectSchedule
          (pyGet (if truthy p.schedule then ensureMapping p.schedule else []) "schedule")
          now) = Except.ok ms ∧
      injectErrorSummary ms.1 [] (ensureList p.error_report) (hasReportOf p.error_report) =
        Except.ok me ∧
      snap.metrics = me.1 ∧
      snap.attributes.map Prod.fst =
        ["system", "battery", "grid", "solar", "load", "schedule", "errors"] := by
  rw [summarize] at h
  simp only [errorListOf_eq] at h
  split at h
  · exact absurd h (by simp)
  next stateRaw hs =>
    split at h
    · exact absurd h (by simp)
    next ms hsched =>
      split at h
      · exact absurd h (by simp)
      next me herr =>
        rw [Except.ok.injEq] at h
        refine ⟨stateRaw, ms, me, hs, hsched, herr, ?_, ?_⟩
        · rw [← h]
        · rw [← h]
          simp

theorem injectErrorSummary_ok (m ta : List (String × JVal)) (er : List JVal) (hr : Bool)
    (me : List (String × JVal) × List (String × JVal))
    (h : injectErrorSummary m ta er hr = Except.ok me) :
    ∃ acc, collectErrors er ⟨0, 0, [], []⟩ = Except.ok acc ∧
      me.1 = dictSet (dictSet (dictSet (dictSet m "health_state"
        (JVal.jstr (healthStateOf hr acc.errorCount acc.warningCount)))
        "warning_count" (JVal.num acc.warningCount))
        "error_count" (JVal.num acc.errorCount))
        "subsystem_status" (subsystemStatusVal acc.subsystems) := by
  rw [injectErrorSummary] at h
  rcases hacc : collectErrors er ⟨0, 0, [], []⟩ with e | acc
  · rw [hacc] at h
    exact absurd h (by simp)
  · rw [hacc] at h
    rw [Except.ok.injEq] at h
    exact ⟨acc, rfl, by rw [← h]⟩

theorem countP_eq_zero_iff_any_false (l : List JVal) (f : JVal → Bool) :
    l.countP f = 0 ↔ l.any f = false := by
  rw [List.countP_eq_zero, List.any_eq_false]

theorem healthStateOf_counts (l : List JVal) :
    healthStateOf true (l.countP isErrorRecord) (l.countP isWarningRecord) =
      (if l.any isErrorRecord then "error"
       else if l.any isWarningRecord then "warning" else "ok") := by
  have he := countP_eq_zero_iff_any_false l isErrorRecord
  have hw := countP_eq_zero_iff_any_false l isWarningRecord
  rcases hae : l.any isErrorRecord <;> rcases haw : l.any isWarningRecord <;>
    simp_all [healthStateOf]

/-- Claim C5: the `health_state` metric follows the priority order — "unknown" when the
raw error_report is null, else "error" when some record has `activated == "error"`,
else "warning" when some record has `activated == "warning"`, else "ok" (so an empty
error_report list yields "ok", not "unknown"). -/
theorem C5_health_state (p : HomevoltPayload) (now : Rat)
    (snap : HomevoltCoordinatorData) (h : summarize p now = Except.ok snap) :
    dictGet? snap.metrics "health_state" = some (JVal.jstr
      (match p.error_report with
       | JVal.null => "unknown"
       | _ =>
         if (ensureList p.error_report).any isErrorRecord then "error"
         else if (ensureList p.error_report).any isWarningRecord then "warning"
         else "ok")) := by
  obtain ⟨stateRaw, ms, me, hs, hsched, herr, hmet, hattr⟩ := summarize_ok_decomp p now snap h
  obtain ⟨acc, hacc, hme⟩ := injectErrorSummary_ok _ _ _ _ _ herr
  obtain ⟨hec, hwc⟩ := collectErrors_ok_counts _ _ _ hacc
  rw [hmet, hme]
  rw [dictGet?_dictSet_ne _ _ _ _ (by decide), dictGet?_dictSet_ne _ _ _ _ (by decide),
    dictGet?_dictSet_ne _ _ _ _ (by decide), dictGet?_dictSet_self, hec, hwc]
  rcases hp : p.error_report with _ | b | q | s | xs | fs <;>
    simp [hasReportOf, healthStateOf, healthStateOf_counts]

/-- Witness for C5: an empty error_report list yields health "ok", not "unknown". -/
theorem C5_witness : dictGet? c5wSnap.metrics "health_state" = some (JVal.jstr "ok") := by
  have h := C5_health_state c5wPayload 0 c5wSnap rfl
  simpa using h

theorem mem_map_fst_addToBucket (subs : List (String × List JVal)) (name : String)
    (item : JVal) (n : String) :
    n ∈ (addToBucket subs name item).map Prod.fst ↔ n = name ∨ n ∈ subs.map Prod.fst := by
  induction subs with
  | nil => simp [addToBucket]
  | cons q rest ih =>
    obtain ⟨n1, items⟩ := q
    by_cases h : n1 = name
    · subst h
      simp [addToBucket]
      try tauto
    · simp [addToBucket, h, ih]
      try tauto

theorem addToBucket_nonempty (subs : List (String × List JVal)) (name : String)
    (item : JVal) (h : ∀ q ∈ subs, q.2 ≠ []) :
    ∀ q ∈ addToBucket subs name item, q.2 ≠ [] := by
  induction subs with
  | nil =>
    intro q hq
    simp [addToBucket] at hq
    subst hq
    simp
  | cons q0 rest ih =>
    obtain ⟨n1, items⟩ := q0
    by_cases hn : n1 = name
    · subst hn
      intro q hq
      simp [addToBucket] at hq
      rcases hq with rfl | hq
      · simp
      · exact h q (by simp [hq])
    · intro q hq
      simp [addToBucket, hn] at hq
      rcases hq with rfl | hq
      · exact h _ (by simp)
      · exact ih (fun x hx => h x (by simp [hx])) q hq

theorem collectErrors_ok_subsystems (items : List JVal) :
    ∀ (acc acc2 : ErrAcc), collectErrors items acc = Except.ok acc2 →
      (∀ n, n ∈ acc2.subsystems.map Prod.fst ↔
        (n ∈ acc.subsystems.map Prod.fst ∨
          ∃ it ∈ items, isActiveRecord it = true ∧ recordSubsystem it = n)) ∧
      ((∀ q ∈ acc.subsystems, q.2 ≠ []) → ∀ q ∈ acc2.subsystems, q.2 ≠ []) := by
  induction items with
  | nil =>
    intro acc acc2 h
    simp [collectErrors] at h
    subst h
    simp
  | cons it rest ih =>
    intro acc acc2 h
    rcases hv : pyGet (ensureMapping it) "activated" with _ | b | q | s | xs | fs
    · rw [collectErrors, hv] at h
      have h2 : collectErrors rest acc = Except.ok acc2 := h
      obtain ⟨hk, hne⟩ := ih acc acc2 h2
      refine ⟨?_, hne⟩
      intro n
      rw [hk n]
      simp [isActiveRecord, isWarningRecord, isErrorRecord, hv]
    · rw [collectErrors, hv] at h
      have h2 : collectErrors rest acc = Except.ok acc2 := h
      obtain ⟨hk, hne⟩ := ih acc acc2 h2
      refine ⟨?_, hne⟩
      intro n
      rw [hk n]
      simp [isActiveRecord, isWarningRecord, isErrorRecord, hv]
    · rw [collectErrors, hv] at h
      have h2 : collectErrors rest acc = Except.ok acc2 := h
      obtain ⟨hk, hne⟩ := ih acc acc2 h2
      refine ⟨?_, hne⟩
      intro n
      rw [hk n]
      simp [isActiveRecord, isWarningRecord, isErrorRecord, hv]
    · by_cases hw : s = "warning"
      · subst hw
        rw [collectErrors, hv] at h
        have h2 : collectErrors rest
            { warningCount := acc.warningCount + 1, errorCount := acc.errorCount + 0,
              activeItems := acc.activeItems ++
                [activeItemOf (ensureMapping it) (subsystemNameOf (ensureMapping it)) "warning"],
              subsystems := addToBucket acc.subsystems (subsystemNameOf (ensureMapping it))
                (activeItemOf (ensureMapping it) (subsystemNameOf (ensureMapping it))
                  "warning") } = Except.ok acc2 := h
        obtain ⟨hk, hne⟩ := ih _ acc2 h2
        constructor
        · intro n
          rw [hk n]
          simp only [mem_map_fst_addToBucket]
          simp [isActiveRecord, isWarningRecord, isErrorRecord, hv, recordSubsystem]
          constructor
          · intro hc
            rcases hc with (rfl | hmem) | hex
            · exact Or.inr (Or.inl rfl)
            · exact Or.inl hmem
            · exact Or.inr (Or.inr hex)
          · intro hc
            rcases hc with hmem | (rfl | hex)
            · exact Or.inl (Or.inr hmem)
            · exact Or.inl (Or.inl rfl)
            · exact Or.inr hex
        · intro hbase
          exact hne (addToBucket_nonempty _ _ _ hbase)
      · by_cases he : s = "error"
        · subst he
          rw [collectErrors, hv] at h
          have h2 : collectErrors rest
              { warningCount := acc.warningCount + 0, errorCount := acc.errorCount + 1,
                activeItems := acc.activeItems ++
                  [activeItemOf (ensureMapping it) (subsystemNameOf (ensureMapping it)) "error"],
                subsystems := addToBucket acc.subsystems (subsystemNameOf (ensureMapping it))
                  (activeItemOf (ensureMapping it) (subsystemNameOf (ensureMapping it))
                    "error") } = Except.ok acc2 := h
          obtain ⟨hk, hne⟩ := ih _ acc2 h2
          constructor
          · intro n
            rw [hk n]
            simp only [mem_map_fst_addToBucket]
            simp [isActiveRecord, isWarningRecord, isErrorRecord, hv, recordSubsystem]
            constructor
            · intro hc
              rcases hc with (rfl | hmem) | hex
              · exact Or.inr (Or.inl rfl)
              · exact Or.inl hmem
              · exact Or.inr (Or.inr hex)
            · intro hc
              rcases hc with hmem | (rfl | hex)
              · exact Or.inl (Or.inr hmem)
              · exact Or.inl (Or.inl rfl)
              · exact Or.inr hex
          · intro hbase
            exact hne (addToBucket_nonempty _ _ _ hbase)
        · rw [collectErrors, hv] at h
          simp [classifyActivated, hw, he] at h
          obtain ⟨hk, hne⟩ := ih acc acc2 h
          refine ⟨?_, hne⟩
          intro n
          rw [hk n]
          simp [isActiveRecord, isWarningRecord, isErrorRecord, hv, hw, he]
    · rw [collectErrors, hv] at h
      simp [classifyActivated] at h
    · rw [collectErrors, hv] at h
      simp [classifyActivated] at h

/-- Claim C10: every value in the `subsystem_status` metric is true, and a subsystem
name appears as a key if and only if some error record with `activated` in
warning/error is grouped under that name ("unknown" standing in for a missing name). -/
theorem C10_subsystem_status (p : HomevoltPayload) (now : Rat)
    (snap : HomevoltCoordinatorData) (h : summarize p now = Except.ok snap) :
    ∀ entries, dictGet? snap.metrics "subsystem_status" = some (JVal.jobj entries) →
      (∀ pr ∈ entries, pr.2 = JVal.jbool true) ∧
      (∀ name, name ∈ entries.map Prod.fst ↔
        ∃ it ∈ ensureList p.error_report,
          isActiveRecord it = true ∧ recordSubsystem it = name) := by
  obtain ⟨stateRaw, ms, me, hs, hsched, herr, hmet, hattr⟩ := summarize_ok_decomp p now snap h
  obtain ⟨acc, hacc, hme⟩ := injectErrorSummary_ok _ _ _ _ _ herr
  obtain ⟨hkeys, hne⟩ := collectErrors_ok_subsystems _ _ _ hacc
  have hbuckets : ∀ q ∈ acc.subsystems, q.2 ≠ [] := hne (by simp)
  intro entries hent
  rw [hmet, hme, dictGet?_dictSet_self, Option.some.injEq] at hent
  rw [subsystemStatusVal] at hent
  have hent2 := JVal.jobj.inj hent
  subst hent2
  constructor
  · intro pr hpr
    obtain ⟨q, hq, rfl⟩ := List.mem_map.mp hpr
    have hq2 := hbuckets q hq
    simp
    exact hq2
  · intro name
    rw [List.map_map]
    have hcomp : (Prod.fst ∘ fun q : String × List JVal =>
        (q.1, JVal.jbool (!q.2.isEmpty))) = Prod.fst := rfl
    rw [hcomp, hkeys name]
    simp

/-- Witness for C10: the "EMS" key appears for the single warning record. -/
theorem C10_witness :
    "EMS" ∈ ([("EMS", JVal.jbool true)] : List (String × JVal)).map Prod.fst := by
  have h := (C10_subsystem_status c10wPayload 0 c10wSnap rfl
    [("EMS", JVal.jbool true)] rfl).2 "EMS"
  exact h.mpr ⟨JVal.jobj [("sub_system_name", JVal.jstr "EMS"),
    ("activated", JVal.jstr "warning")], by simp [c10wPayload, ensureList], by decide, rfl⟩

theorem mem_dictKeys_if_update (c : Prop) [Decidable c] (m : List (String × JVal))
    (k2 : String) (v : JVal) (k : String) :
    (k ∈ dictKeys (if c then dictSet m k2 v else m)) ↔ ((c ∧ k = k2) ∨ k ∈ dictKeys m) := by
  split
  · next hc => simp [mem_dictKeys_dictSet, hc]
  · next hc => simp [hc]

theorem mem_dictKeys_baseMetrics (status emsData emsAggregate emsVoltage gs ss ls :
    List (String × JVal)) (stateRaw : JVal) (k : String)
    (hk : k ∈ ["system_state", "wifi_status", "lte_status", "battery_soc",
      "battery_temperature", "battery_power", "grid_power", "solar_power", "load_power",
      "grid_energy_imported", "grid_energy_exported", "solar_energy_consumed",
      "solar_energy_produced", "battery_energy_imported", "battery_energy_exported",
      "frequency", "voltage_l1", "voltage_l2", "voltage_l3"]) :
    k ∈ dictKeys (baseMetrics status emsData emsAggregate emsVoltage gs ss ls stateRaw) := by
  rw [baseMetrics]
  simp only [injectPower, mem_dictKeys_dictSet, mem_dictKeys_if_update]
  fin_cases hk <;> simp

theorem scheduleSection_mem_keys (m sched : List (String × JVal))
    (act : Option (List (String × JVal)))
    (ms : List (String × JVal) × List (String × JVal))
    (h : scheduleSection m sched act = Except.ok ms) (k : String) (hk : k ∈ dictKeys m) :
    k ∈ dictKeys ms.1 := by
  rcases act with _ | d
  · have h2 : (Except.ok (m, [("local_mode", pyGet sched "local_mode")]) :
        Except PyErr (List (String × JVal) × List (String × JVal))) = Except.ok ms := h
    rw [Except.ok.injEq] at h2
    rw [← h2]
    exact hk
  · by_cases hd : d.isEmpty = true
    · rw [scheduleSection] at h
      simp only [hd, if_true] at h
      rw [Except.ok.injEq] at h
      rw [← h]
      exact hk
    · rw [scheduleSection] at h
      simp only [hd, Bool.false_eq_true, if_false] at h
      rcases hl : scheduleTypeLabel (pyGet d "type") with e | label
      · rw [hl] at h
        exact absurd h (by simp)
      · rw [hl] at h
        rw [Except.ok.injEq] at h
        rw [← h]
        rcases label with _ | l
        · exact (mem_dictKeys_dictSet _ _ _ _).mpr (Or.inr hk)
        · exact (mem_dictKeys_dictSet _ _ _ _).mpr
            (Or.inr ((mem_dictKeys_dictSet _ _ _ _).mpr (Or.inr hk)))

/-- Counterexample to Claim C1 as stated: on a payload with no active schedule the
returned metrics mapping contains neither `schedule_state` nor `schedule_setpoint`. -/
theorem C1_counterexample :
    (summarize ⟨JVal.jobj [], JVal.jobj [], JVal.null, JVal.null⟩ 0).map
      (fun s => (dictGet? s.metrics "schedule_state",
                 dictGet? s.metrics "schedule_setpoint")) =
    Except.ok (none, none) := rfl

/-- Claim C1 (amended): whenever `summarize` returns, the metrics mapping contains
every declared metric key except `schedule_state` and `schedule_setpoint` (which are
emitted only for an active schedule entry), each possibly null, and the attributes
mapping contains exactly the categories system, battery, grid, solar, load, schedule,
errors, each possibly empty. -/
theorem C1_metric_keys (p : HomevoltPayload) (now : Rat)
    (snap : HomevoltCoordinatorData) (h : summarize p now = Except.ok snap) :
    (∀ k ∈ declaredMetricKeys, k ≠ "schedule_state" → k ≠ "schedule_setpoint" →
      k ∈ dictKeys snap.metrics) ∧
    snap.attributes.map Prod.fst =
      ["system", "battery", "grid", "solar", "load", "schedule", "errors"] := by
  obtain ⟨stateRaw, ms, me, hs, hsched, herr, hmet, hattr⟩ := summarize_ok_decomp p now snap h
  obtain ⟨acc, hacc, hme⟩ := injectErrorSummary_ok _ _ _ _ _ herr
  have hlast : ∀ k, (k = "health_state" ∨ k = "warning_count" ∨ k = "error_count" ∨
      k = "subsystem_status") → k ∈ dictKeys snap.metrics := by
    intro k hk
    rw [hmet, hme]
    simp only [mem_dictKeys_dictSet]
    tauto
  have hbase19 : ∀ k, k ∈ dictKeys (baseMetrics (ensureMapping p.status)
      (ensureMapping (pyGet (firstListEntry (pyGet (ensureMapping p.ems) "ems")) "ems_data"))
      (ensureMapping (pyGet (firstListEntry (pyGet (ensureMapping p.ems) "ems"))
        "ems_aggregate"))
      (ensureMapping (pyGet (firstListEntry (pyGet (ensureMapping p.ems) "ems"))
        "ems_voltage"))
      (sensorByIndex (ensureList (pyGet (ensureMapping p.ems) "sensors")) 0)
      (sensorByIndex (ensureList (pyGet (ensureMapping p.ems) "sensors")) 1)
      (sensorByIndex (ensureList (pyGet (ensureMapping p.ems) "sensors")) 2) stateRaw) →
      k ∈ dictKeys snap.metrics := by
    intro k hk
    rw [hmet, hme]
    simp only [mem_dictKeys_dictSet]
    exact Or.inr (Or.inr (Or.inr (Or.inr (scheduleSection_mem_keys _ _ _ _ hsched k hk))))
  refine ⟨?_, hattr⟩
  intro k hk h1 h2
  fin_cases hk <;>
    first
      | exact absurd rfl h1
      | exact absurd rfl h2
      | (apply hlast; simp; done)
      | (apply hbase19; apply mem_dictKeys_baseMetrics; simp; done)

/-- Witness for C1: `battery_soc` is present and the attribute categories are exactly
the seven declared ones on the minimal payload. -/
theorem C1_witness :
    "battery_soc" ∈ dictKeys c1wSnap.metrics ∧
    c1wSnap.attributes.map Prod.fst =
      ["system", "battery", "grid", "solar", "load", "schedule", "errors"] := by
  have h := C1_metric_keys c1wPayload 0 c1wSnap rfl
  exact ⟨h.1 "battery_soc" (by simp [declaredMetricKeys]) (by decide) (by decide), h.2⟩
